import Mathlib

/-
Verification of the interactive-gtfs repository: a shallow embedding of the
transit data model, the UI state reducer, the renderer guards and the
(spec-described) preprocessing pipeline, together with theorems settling the
specification claims.

JSON numbers are modelled as rationals (the app performs no arithmetic on
them beyond swapping coordinate order), JS objects used as string-keyed
records are modelled as association lists with first-match lookup, and JS
`Set` is modelled as `Finset String`.
-/

-- ===========================================================================
-- Data model (src/app/src/lib/types.ts)
-- ===========================================================================

inductive TransitType where
  | metro
  | rail
  | bus
deriving DecidableEq, Repr

structure GeoJSONPoint where
  coordinates : Rat × Rat
deriving DecidableEq, Repr

structure GeoJSONLineString where
  coordinates : List (Rat × Rat)
deriving DecidableEq, Repr

structure StopProperties where
  stop_id : String
  name : String
  agency : String
  transit_type : TransitType
  routes : List String
  route_count : Nat
  first_time : String
  last_time : String
  stop_code : Option String := none
  platform_code : Option String := none
  description : Option String := none
deriving DecidableEq, Repr

structure RouteProperties where
  route_id : String
  name : String
  short_name : String
  long_name : String
  type : Nat
  type_name : String
  agency : String
  color : String
  text_color : String
  stops : List String
  stop_count : Nat
  description : Option String := none
deriving DecidableEq, Repr

structure StopFeature where
  geometry : GeoJSONPoint
  properties : StopProperties
deriving DecidableEq, Repr

/-- A route feature as consumed at runtime; the renderer guards against a
missing geometry, so the geometry is modelled as optional. -/
structure RouteFeature where
  geometry : Option GeoJSONLineString
  properties : RouteProperties
deriving DecidableEq, Repr

structure StopsGeoJSON where
  features : List StopFeature
deriving DecidableEq, Repr

structure RoutesGeoJSON where
  features : List RouteFeature
deriving DecidableEq, Repr

abbrev StopToRoutesMap := List (String × List String)

structure RouteStopInfo where
  stop_id : String
  name : String
  seq : Nat
deriving DecidableEq, Repr

abbrev RouteToStopsMap := List (String × List RouteStopInfo)

structure TimetableEntry where
  weekday : List String
  weekend : List String
deriving DecidableEq, Repr

abbrev RouteTimetable := List (String × TimetableEntry)

abbrev TimetableData := List (String × RouteTimetable)

structure AgencyStats where
  name : String
  transit_type : TransitType
  stop_count : Nat
  route_count : Nat
  color_default : String
  files_available : Option (List String) := none
  has_shapes : Option Bool := none
  agency_name : Option String := none
deriving DecidableEq, Repr

structure TransitTypeStats where
  stop_count : Nat
  route_count : Nat
deriving DecidableEq, Repr

structure MetadataTotals where
  stops : Nat
  routes : Nat
deriving DecidableEq, Repr

structure Metadata where
  generated_at : String
  version : String
  city : String
  center : Rat × Rat
  default_zoom : Nat
  totals : MetadataTotals
  agencies : List (String × AgencyStats)
  transit_types : List (TransitType × TransitTypeStats)
  route_type_names : List (String × String)
  files : List (String × String)
deriving DecidableEq, Repr

structure TransitData where
  stops : StopsGeoJSON
  routes : RoutesGeoJSON
  stopToRoutes : StopToRoutesMap
  routeToStops : RouteToStopsMap
  timetable : TimetableData
  metadata : Metadata
deriving DecidableEq, Repr

structure FilterState where
  metro : Bool
  rail : Bool
  bus : Bool
deriving DecidableEq, Repr

structure SelectionState where
  selectedStop : Option String
  selectedRoute : Option String
  highlightedRoutes : List String
deriving DecidableEq, Repr

/-- First-match lookup in a string-keyed record, with a default: models the JS
idiom `record[key] || fallback`. -/
def recordFindD {α : Type} (m : List (String × α)) (k : String) (d : α) : α :=
  match m with
  | [] => d
  | (k', v) :: rest => if k' = k then v else recordFindD rest k d

-- ===========================================================================
-- Utility functions (src/app/src/lib/utils.ts)
-- ===========================================================================

def TRANSIT_COLORS : TransitType → String
  | .metro => "#E91E63"
  | .rail => "#9C27B0"
  | .bus => "#FFC107"

structure RouteLineOptions where
  color : String
  weight : Nat
  opacity : Rat
  dashArray : Option String := none
deriving DecidableEq, Repr

/-- JS `s || d` where `s` is an optional string: the fallback is used when the
string is absent or empty (both falsy). -/
def jsStrOr (s : Option String) (d : String) : String :=
  match s with
  | none => d
  | some s => if s = "" then d else s

/-- `getRouteLineOptions`; the transit type reaches this function as a string
cast from JSON (`type_name as TransitType`), so the parameter is a string and
the switch's default branch is reachable. -/
def getRouteLineOptions (transitType : String) (color : Option String) : RouteLineOptions :=
  if transitType = "metro" then
    { color := jsStrOr color (TRANSIT_COLORS .metro), weight := 5, opacity := 9/10 }
  else if transitType = "rail" then
    { color := TRANSIT_COLORS .rail, weight := 4, opacity := 8/10, dashArray := some "10, 5" }
  else if transitType = "bus" then
    { color := TRANSIT_COLORS .bus, weight := 2, opacity := 6/10 }
  else
    { color := jsStrOr color "#888888", weight := 3, opacity := 7/10 }

def getAgencyTransitType (agency : String) : TransitType :=
  if agency = "HMRL" then .metro
  else if agency = "MMTS" then .rail
  else if agency = "TGSRTC" then .bus
  else .bus

def formatTime (time : String) : String :=
  if time = "" then "--:--" else time

def formatTimeRange (first last : String) : String :=
  if first = "" ∨ last = "" then "Schedule not available"
  else formatTime first ++ " - " ++ formatTime last

/-- JS `String.prototype.split` specialised to a single-character separator:
always returns at least one (possibly empty) piece. -/
def splitOnChar (c : Char) : List Char → List (List Char)
  | [] => [[]]
  | x :: xs =>
    match splitOnChar c xs with
    | [] => [[]]
    | h :: t => if x = c then [] :: h :: t else (x :: h) :: t

/-- JS `Array.prototype.join` with a single-character separator. -/
def joinWith (c : Char) : List (List Char) → List Char
  | [] => []
  | [x] => x
  | x :: xs => x ++ c :: joinWith c xs

structure ParsedId where
  agency : String
  originalId : String
deriving DecidableEq, Repr

def parseStopId (prefixedId : String) : ParsedId :=
  match splitOnChar '_' prefixedId.data with
  | [] => { agency := "", originalId := "" }
  | a :: rest => { agency := String.mk a, originalId := String.mk (joinWith '_' rest) }

def parseRouteId (prefixedId : String) : ParsedId :=
  match splitOnChar '_' prefixedId.data with
  | [] => { agency := "", originalId := "" }
  | a :: rest => { agency := String.mk a, originalId := String.mk (joinWith '_' rest) }

-- ===========================================================================
-- Data loader (src/app/src/lib/dataLoader.ts)
-- ===========================================================================

namespace DataLoader

/-- The module-level mutable cell `let cachedData: TransitData | null = null`,
threaded explicitly: every caller of the module shares this one cell. -/
abbrev CacheState := Option TransitData

/-- `loadTransitData`, with the result of fetching the six artifact files
abstracted as `fetched`: returns the cached value when the cache is occupied,
otherwise stores and returns the fetched value. -/
def loadTransitData (fetched : TransitData) (cachedData : CacheState) :
    TransitData × CacheState :=
  match cachedData with
  | some d => (d, some d)
  | none => (fetched, some fetched)

def clearCache (_ : CacheState) : CacheState := none

def isDataLoaded (cachedData : CacheState) : Bool := cachedData.isSome

def getCachedData (cachedData : CacheState) : Option TransitData := cachedData

end DataLoader

-- ===========================================================================
-- Transit context reducer (src/context/TransitContext.tsx)
-- ===========================================================================

structure TransitState where
  data : Option TransitData
  loading : Bool
  error : Option String
  filters : FilterState
  selection : SelectionState
  sidebarOpen : Bool
  visibleRoutes : Finset String
deriving DecidableEq

inductive TransitAction where
  | SET_DATA (payload : TransitData)
  | SET_LOADING (payload : Bool)
  | SET_ERROR (payload : String)
  | TOGGLE_FILTER (payload : TransitType)
  | SET_FILTERS (payload : FilterState)
  | SELECT_STOP (payload : Option String)
  | SELECT_ROUTE (payload : Option String)
  | SET_HIGHLIGHTED_ROUTES (payload : List String)
  | TOGGLE_SIDEBAR
  | OPEN_SIDEBAR
  | TOGGLE_ROUTE_VISIBILITY (payload : String)
  | SET_VISIBLE_ROUTES (payload : Finset String)
  | CLEAR_SELECTION

def initialState : TransitState :=
  { data := none
    loading := true
    error := none
    filters := { metro := true, rail := true, bus := true }
    selection := { selectedStop := none, selectedRoute := none, highlightedRoutes := [] }
    sidebarOpen := true
    visibleRoutes := ∅ }

/-- JS truthiness of a nullable string: `null` and `""` are falsy. -/
def jsTruthy : Option String → Bool
  | none => false
  | some s => s != ""

def transitReducer (state : TransitState) (action : TransitAction) : TransitState :=
  match action with
  | .SET_DATA payload =>
      { state with data := some payload, loading := false, error := none }
  | .SET_LOADING payload =>
      { state with loading := payload }
  | .SET_ERROR payload =>
      { state with error := some payload, loading := false }
  | .TOGGLE_FILTER payload =>
      { state with filters :=
          match payload with
          | .metro => { state.filters with metro := !state.filters.metro }
          | .rail => { state.filters with rail := !state.filters.rail }
          | .bus => { state.filters with bus := !state.filters.bus } }
  | .SET_FILTERS payload =>
      { state with filters := payload }
  | .SELECT_STOP payload =>
      let stopRoutes : List String :=
        match payload, state.data with
        | some sid, some d => if sid != "" then recordFindD d.stopToRoutes sid [] else []
        | _, _ => []
      { state with
        selection := { state.selection with
          selectedStop := payload
          selectedRoute := none
          highlightedRoutes := stopRoutes }
        visibleRoutes := if jsTruthy payload then stopRoutes.toFinset else ∅ }
  | .SELECT_ROUTE payload =>
      { state with
        selection := { state.selection with
          selectedRoute := payload
          selectedStop := none
          highlightedRoutes :=
            match payload with
            | some rid => if rid != "" then [rid] else []
            | none => [] }
        visibleRoutes :=
          match payload with
          | some rid => if rid != "" then {rid} else ∅
          | none => ∅ }
  | .SET_HIGHLIGHTED_ROUTES payload =>
      { state with selection := { state.selection with highlightedRoutes := payload } }
  | .TOGGLE_SIDEBAR =>
      { state with sidebarOpen := !state.sidebarOpen }
  | .OPEN_SIDEBAR =>
      { state with sidebarOpen := true }
  | .TOGGLE_ROUTE_VISIBILITY payload =>
      { state with visibleRoutes :=
          if payload ∈ state.visibleRoutes then state.visibleRoutes.erase payload
          else insert payload state.visibleRoutes }
  | .SET_VISIBLE_ROUTES payload =>
      { state with visibleRoutes := payload }
  | .CLEAR_SELECTION =>
      { state with
        selection := { selectedStop := none, selectedRoute := none, highlightedRoutes := [] }
        visibleRoutes := ∅ }

def isRouteVisible (state : TransitState) (routeId : String) : Bool :=
  if state.visibleRoutes.card = 0 then true
  else decide (routeId ∈ state.visibleRoutes)

/-- At most one of the two selections is active. -/
def selectionExclusive (s : TransitState) : Prop :=
  s.selection.selectedStop = none ∨ s.selection.selectedRoute = none

-- ===========================================================================
-- Route renderer (src/app/src/components/Map/RouteLayer.tsx)
-- ===========================================================================

/-- The observable output of a rendered `Polyline` element: its positions
(in Leaflet latitude-longitude order) and its path options. -/
structure RenderedPolyline where
  positions : List (Rat × Rat)
  color : String
  weight : Nat
  opacity : Rat
  dashArray : Option String
deriving DecidableEq, Repr

/-- `RoutePolyline`: returns `none` exactly where the component returns
`null`, otherwise the polyline it renders. -/
def RoutePolyline (route : RouteFeature) (isHighlighted : Bool) :
    Option RenderedPolyline :=
  match route.geometry with
  | none => none
  | some geometry =>
    if geometry.coordinates.length < 2 then none
    else
      let baseOptions := getRouteLineOptions route.properties.type_name (some route.properties.color)
      some
        { positions := geometry.coordinates.map (fun p => (p.2, p.1))
          color := baseOptions.color
          weight := if isHighlighted then baseOptions.weight + 2 else baseOptions.weight
          opacity := if isHighlighted then 1 else baseOptions.opacity
          dashArray := baseOptions.dashArray }

-- ===========================================================================
-- Output assembler (preprocessing pipeline, not shipped under src/)
-- ===========================================================================

namespace OutputAssembler

/-- Modelled from the spec: the canonical `Stop` entity produced by the Stop
Resolver (the Python pipeline's `stop_processor.py` is absent from src/) —
namespaced id, name, position, agency, transit type, the deduplicated set of
serving routes, and the first/last scheduled times. -/
structure Stop where
  id : String
  name : String
  lat : Rat
  lng : Rat
  agency : String
  transit_type : TransitType
  route_ids : List String
  first_time : String
  last_time : String
deriving DecidableEq, Repr

/-- Modelled from the spec: a `StopRef` entry of a route's ordered stop
sequence. -/
structure StopRef where
  stop_id : String
  name : String
  sequence_number : Nat
deriving DecidableEq, Repr

/-- Modelled from the spec: the canonical `Route` entity produced by the Route
Geometry Builder (the pipeline's `route_processor.py` is absent from src/). -/
structure Route where
  id : String
  name : String
  short_name : String
  long_name : String
  type : Nat
  agency : String
  color : String
  text_color : String
  ordered_stops : List StopRef
  geometry : List (Rat × Rat)
deriving DecidableEq, Repr

/-- Modelled from the spec: the stop→routes index, computed from the canonical
stop entities (`stop_id ↦ route_ids`), never from the routes. -/
def stopToRoutesIndex (stops : List Stop) : StopToRoutesMap :=
  stops.map fun st => (st.id, st.route_ids)

/-- Modelled from the spec: the route→stops index, computed from the canonical
route entities, each entry serialized as its output form (stop_id, name,
seq ordered by seq). -/
def routeToStopsIndex (routes : List Route) : RouteToStopsMap :=
  routes.map fun rt =>
    (rt.id, rt.ordered_stops.map fun sr =>
      { stop_id := sr.stop_id, name := sr.name, seq := sr.sequence_number })

/-- Modelled from the spec: the assembler's index-integrity check — every
serving-route reference on a stop must be mirrored in the route→stops index
and every stop reference on a route must be mirrored in the stop→routes
index. -/
def indexConsistent (stops : List Stop) (routes : List Route) : Bool :=
  (stops.all fun st => st.route_ids.all fun r =>
    decide (st.id ∈ (recordFindD (routeToStopsIndex routes) r []).map RouteStopInfo.stop_id)) &&
  (routes.all fun rt => rt.ordered_stops.all fun sr =>
    decide (rt.id ∈ recordFindD (stopToRoutesIndex stops) sr.stop_id []))

/-- Modelled from the spec (§4.7): `assembleIndexes` merges the canonical
entities into the two cross-index artifacts; any inconsistency between the
entities and their indexes is a fatal `IndexIntegrityError`. -/
def assembleIndexes (stops : List Stop) (routes : List Route) :
    Except String (StopToRoutesMap × RouteToStopsMap) :=
  if indexConsistent stops routes then
    .ok (stopToRoutesIndex stops, routeToStopsIndex routes)
  else
    .error "IndexIntegrityError"

end OutputAssembler

-- ===========================================================================
-- Timetable builder (preprocessing pipeline, not shipped under src/)
-- ===========================================================================

namespace TimetableBuilder

/-- Modelled from the spec (§4.6): insert a raw (pre-modulo, in seconds) GTFS
departure time into an ascending duplicate-free list of raw times. -/
def insertSorted (t : Nat) : List Nat → List Nat
  | [] => [t]
  | x :: xs =>
    if t < x then t :: x :: xs
    else if t = x then x :: xs
    else x :: insertSorted t xs

/-- Modelled from the spec (§4.6): deduplicate exact-time collisions and sort
by the original pre-modulo value. -/
def sortDedup (ts : List Nat) : List Nat :=
  ts.foldr insertSorted []

def pad2 (n : Nat) : String :=
  if n < 10 then "0" ++ toString n else toString n

/-- Modelled from the spec (§4.6): display normalization of a raw GTFS time in
seconds — hours taken modulo 24, formatted `HH:MM`. -/
def formatHHMM (t : Nat) : String :=
  pad2 (t / 3600 % 24) ++ ":" ++ pad2 (t % 3600 / 60)

/-- Modelled from the spec (§4.6): one day-type bucket of a (stop, route)
timetable entry — the raw departure times deduplicated, sorted by pre-modulo
value, then rendered as `HH:MM` labels (the timetable builder itself,
`timetable_processor.py`, is absent from src/). -/
def buildBucket (ts : List Nat) : List String :=
  (sortDedup ts).map formatHHMM

end TimetableBuilder

-- ===========================================================================
-- Pipeline CLI (preprocessing pipeline, not shipped under src/)
-- ===========================================================================

namespace Pipeline

/-- Modelled from the spec: one agency's feed bundle as presented to the run,
with the outcome of its required-column validation abstracted as a flag. -/
structure FeedInput where
  code : String
  requiredColumnsOk : Bool
deriving DecidableEq, Repr

/-- Modelled from the spec: the per-feed contribution to the merged output. -/
structure FeedOutput where
  agency : String
deriving DecidableEq, Repr

/-- Modelled from the spec (§4.2, §7): processing one feed fails with a
`ValidationError` exactly when its required-column validation fails, aborting
only that feed. -/
def processFeed (f : FeedInput) : Except String FeedOutput :=
  if f.requiredColumnsOk then .ok { agency := f.code }
  else .error "ValidationError"

/-- Modelled from the spec (§5, §6): the run processes every feed, keeps the
contributions of the feeds that succeeded, and exits 0 when at least one feed
succeeded and 1 when none did (the CLI entry point `main.py` is absent from
src/). -/
def runPipeline (feeds : List FeedInput) : List FeedOutput × Nat :=
  let outs := feeds.filterMap fun f => (processFeed f).toOption
  (outs, if outs.isEmpty then 1 else 0)

end Pipeline

-- ===========================================================================
-- Concrete sample data for witnesses and counterexamples
-- ===========================================================================

def sampleMetadata (version : String) : Metadata :=
  { generated_at := "2024-01-01T00:00:00Z"
    version := version
    city := "Hyderabad"
    center := (17385/1000, 784867/10000)
    default_zoom := 12
    totals := { stops := 0, routes := 0 }
    agencies := []
    transit_types := []
    route_type_names := []
    files := [] }

def sampleDataA : TransitData :=
  { stops := ⟨[]⟩, routes := ⟨[]⟩, stopToRoutes := [], routeToStops := []
    timetable := [], metadata := sampleMetadata "A" }

def sampleDataB : TransitData :=
  { stops := ⟨[]⟩, routes := ⟨[]⟩, stopToRoutes := [], routeToStops := []
    timetable := [], metadata := sampleMetadata "B" }

def sampleVisibleState : TransitState :=
  { initialState with visibleRoutes := {"r1"} }

def sampleStops : List OutputAssembler.Stop :=
  [{ id := "HMRL_S1", name := "Stop 1", lat := 17, lng := 78
     agency := "HMRL", transit_type := .metro, route_ids := ["HMRL_R1"]
     first_time := "05:30", last_time := "23:00" }]

def sampleRoutes : List OutputAssembler.Route :=
  [{ id := "HMRL_R1", name := "Red", short_name := "R", long_name := "Red Line"
     type := 1, agency := "HMRL", color := "#FF0000", text_color := "#FFFFFF"
     ordered_stops := [{ stop_id := "HMRL_S1", name := "Stop 1", sequence_number := 1 }]
     geometry := [(78, 17), (781/10, 171/10)] }]

def degenerateRoute : RouteFeature :=
  { geometry := some { coordinates := [(784/10, 174/10)] }
    properties :=
      { route_id := "TGSRTC_1", name := "Route 1", short_name := "1"
        long_name := "Route One", type := 3, type_name := "bus"
        agency := "TGSRTC", color := "#FFC107", text_color := "#000000"
        stops := [], stop_count := 0 } }

-- ===========================================================================
-- C4: formatTime is the identity on non-empty strings
-- ===========================================================================

/-- Claim C4: time display normalization is idempotent — for every non-empty
time string, `formatTime` returns it unchanged. -/
theorem formatTime_idempotent_on_nonempty (t : String) (h : t ≠ "") :
    formatTime t = t := by
  simp [formatTime, h]

theorem formatTime_idempotent_on_nonempty_witness :
    ("05:30" : String) ≠ "" ∧ formatTime "05:30" = "05:30" :=
  ⟨by decide, formatTime_idempotent_on_nonempty "05:30" (by decide)⟩

-- ===========================================================================
-- C6: getAgencyTransitType is a total fixed code table into the 3 categories
-- ===========================================================================

/-- Claim C6: the visual transit category function is total into exactly
metro/rail/bus, and is given by the fixed table HMRL ↦ metro, MMTS ↦ rail,
TGSRTC ↦ bus, with every other input mapped to bus. -/
theorem getAgencyTransitType_fixed_table :
    (∀ a : String, getAgencyTransitType a = .metro ∨ getAgencyTransitType a = .rail ∨
      getAgencyTransitType a = .bus) ∧
    getAgencyTransitType "HMRL" = .metro ∧
    getAgencyTransitType "MMTS" = .rail ∧
    getAgencyTransitType "TGSRTC" = .bus ∧
    (∀ a : String, a ≠ "HMRL" → a ≠ "MMTS" → a ≠ "TGSRTC" →
      getAgencyTransitType a = .bus) := by
  refine ⟨?_, by decide, by decide, by decide, ?_⟩
  · intro a
    unfold getAgencyTransitType
    split
    · exact Or.inl rfl
    · split
      · exact Or.inr (Or.inl rfl)
      · split
        · exact Or.inr (Or.inr rfl)
        · exact Or.inr (Or.inr rfl)
  · intro a h1 h2 h3
    simp [getAgencyTransitType, h1, h2, h3]

theorem getAgencyTransitType_fixed_table_witness :
    ("XYZ" : String) ≠ "HMRL" ∧ ("XYZ" : String) ≠ "MMTS" ∧
    ("XYZ" : String) ≠ "TGSRTC" ∧ getAgencyTransitType "XYZ" = .bus :=
  ⟨by decide, by decide, by decide,
    getAgencyTransitType_fixed_table.2.2.2.2 "XYZ" (by decide) (by decide) (by decide)⟩

-- ===========================================================================
-- C5: the loaded-data cache is a module-level singleton (claim corrected)
-- ===========================================================================

/-- Claim C5 as stated is false: the cached transit data IS held in a
module-level mutable cell shared by all callers — a second caller whose fetch
would produce different data still receives the first caller's cached data. -/
theorem cache_claim_counterexample :
    (DataLoader.loadTransitData sampleDataB
      (DataLoader.loadTransitData sampleDataA none).2).1 = sampleDataA ∧
    sampleDataA ≠ sampleDataB :=
  ⟨rfl, by decide⟩

/-- Claim C5 (amended): the loaded-data cache is an implicit module-level
mutable singleton `cachedData` shared by all callers of `loadTransitData`,
which returns the cached value whenever one is present; invalidation happens
only through the explicit `clearCache` call, after which the next load
fetches afresh. -/
theorem cache_module_singleton_behavior :
    ∀ (fetched d : TransitData) (st : DataLoader.CacheState),
      (st = some d → DataLoader.loadTransitData fetched st = (d, st)) ∧
      DataLoader.loadTransitData fetched none = (fetched, some fetched) ∧
      DataLoader.clearCache st = none ∧
      (DataLoader.loadTransitData fetched (DataLoader.clearCache st)).1 = fetched := by
  intro fetched d st
  refine ⟨?_, rfl, rfl, rfl⟩
  rintro rfl
  rfl

theorem cache_module_singleton_behavior_witness :
    (some sampleDataA : DataLoader.CacheState) = some sampleDataA ∧
    DataLoader.loadTransitData sampleDataB (some sampleDataA) =
      (sampleDataA, some sampleDataA) :=
  ⟨rfl, (cache_module_singleton_behavior sampleDataB sampleDataA (some sampleDataA)).1 rfl⟩

-- ===========================================================================
-- C9: empty visibleRoutes means show-all
-- ===========================================================================

/-- Claim C9: when `visibleRoutes` is empty, `isRouteVisible` is true for
every route id; when non-empty, it is true exactly on its members. -/
theorem isRouteVisible_empty_means_show_all :
    ∀ (state : TransitState) (routeId : String),
      (state.visibleRoutes = ∅ → isRouteVisible state routeId = true) ∧
      (state.visibleRoutes ≠ ∅ →
        (isRouteVisible state routeId = true ↔ routeId ∈ state.visibleRoutes)) := by
  intro s r
  constructor
  · intro h
    simp [isRouteVisible, h]
  · intro h
    have hc : ¬s.visibleRoutes.card = 0 := by
      simpa [Finset.card_eq_zero] using h
    simp [isRouteVisible, hc]

theorem isRouteVisible_empty_means_show_all_witness :
    sampleVisibleState.visibleRoutes ≠ ∅ ∧
    (isRouteVisible sampleVisibleState "r1" = true ↔
      "r1" ∈ sampleVisibleState.visibleRoutes) :=
  ⟨by decide, (isRouteVisible_empty_means_show_all sampleVisibleState "r1").2 (by decide)⟩

-- ===========================================================================
-- C10: RoutePolyline renders nothing on degenerate geometry
-- ===========================================================================

/-- Claim C10: for a route feature whose geometry is missing or has fewer than
2 coordinates, `RoutePolyline` renders nothing; a polyline is produced only
when the geometry has at least 2 coordinates. -/
theorem RoutePolyline_degenerate_geometry :
    ∀ (route : RouteFeature) (hl : Bool),
      (route.geometry = none → RoutePolyline route hl = none) ∧
      (∀ g, route.geometry = some g → g.coordinates.length < 2 →
        RoutePolyline route hl = none) ∧
      (RoutePolyline route hl ≠ none →
        ∃ g, route.geometry = some g ∧ 2 ≤ g.coordinates.length) := by
  intro route hl
  refine ⟨?_, ?_, ?_⟩
  · intro h
    simp [RoutePolyline, h]
  · intro g hg hlen
    simp [RoutePolyline, hg, hlen]
  · intro hne
    cases hgeo : route.geometry with
    | none => exact absurd (by simp [RoutePolyline, hgeo]) hne
    | some g =>
      by_cases hlen : g.coordinates.length < 2
      · exact absurd (by simp [RoutePolyline, hgeo, hlen]) hne
      · exact ⟨g, rfl, by omega⟩

theorem RoutePolyline_degenerate_geometry_witness :
    degenerateRoute.geometry = some { coordinates := [(784/10, 174/10)] } ∧
    ({ coordinates := [(784/10, 174/10)] } : GeoJSONLineString).coordinates.length < 2 ∧
    RoutePolyline degenerateRoute true = none :=
  ⟨rfl, by decide,
    (RoutePolyline_degenerate_geometry degenerateRoute true).2.1 _ rfl (by decide)⟩

-- ===========================================================================
-- C8: selection mutual exclusion invariant of the reducer
-- ===========================================================================

lemma selectionExclusive_step (s : TransitState) (a : TransitAction)
    (h : selectionExclusive s) : selectionExclusive (transitReducer s a) := by
  cases a with
  | SELECT_STOP payload => exact Or.inr rfl
  | SELECT_ROUTE payload => exact Or.inl rfl
  | CLEAR_SELECTION => exact Or.inl rfl
  | SET_DATA payload => exact h
  | SET_LOADING payload => exact h
  | SET_ERROR payload => exact h
  | TOGGLE_FILTER payload => exact h
  | SET_FILTERS payload => exact h
  | SET_HIGHLIGHTED_ROUTES payload => exact h
  | TOGGLE_SIDEBAR => exact h
  | OPEN_SIDEBAR => exact h
  | TOGGLE_ROUTE_VISIBILITY payload => exact h
  | SET_VISIBLE_ROUTES payload => exact h

lemma selectionExclusive_foldl (l : List TransitAction) :
    ∀ s : TransitState, selectionExclusive s →
      selectionExclusive (l.foldl transitReducer s) := by
  induction l with
  | nil => intro s hs; exact hs
  | cons a l ih => intro s hs; exact ih _ (selectionExclusive_step s a hs)

/-- Claim C8: in every state reachable from the initial state by any sequence
of reducer actions, at most one of `selectedStop` and `selectedRoute` is
non-null. -/
theorem selection_mutual_exclusion (acts : List TransitAction) :
    selectionExclusive (acts.foldl transitReducer initialState) :=
  selectionExclusive_foldl acts initialState (Or.inl rfl)

-- ===========================================================================
-- C2: parse functions invert the namespacing function
-- ===========================================================================

lemma splitOnChar_ne_nil (c : Char) (l : List Char) : splitOnChar c l ≠ [] := by
  cases l with
  | nil => simp [splitOnChar]
  | cons x xs =>
    simp only [splitOnChar]
    cases splitOnChar c xs with
    | nil => simp
    | cons h t =>
      by_cases hx : x = c <;> simp [hx]

lemma joinWith_splitOnChar (c : Char) (l : List Char) :
    joinWith c (splitOnChar c l) = l := by
  induction l with
  | nil => rfl
  | cons x xs ih =>
    cases hs : splitOnChar c xs with
    | nil => exact absurd hs (splitOnChar_ne_nil c xs)
    | cons h t =>
      rw [hs] at ih
      by_cases hx : x = c
      · subst hx
        simp only [splitOnChar, hs, if_pos rfl]
        cases t with
        | nil => simpa [joinWith] using ih
        | cons t1 ts => simpa [joinWith] using ih
      · simp only [splitOnChar, hs, if_neg hx]
        cases t with
        | nil => simpa [joinWith] using ih
        | cons t1 ts =>
          simp only [joinWith, List.cons_append] at ih ⊢
          rw [ih]

lemma splitOnChar_append_sep (c : Char) (a s : List Char) (ha : c ∉ a) :
    splitOnChar c (a ++ c :: s) = a :: splitOnChar c s := by
  induction a with
  | nil =>
    cases hs : splitOnChar c s with
    | nil => exact absurd hs (splitOnChar_ne_nil c s)
    | cons h t => simp [splitOnChar, hs]
  | cons y ys ih =>
    have hy : y ≠ c := fun he => ha (he ▸ List.mem_cons_self y ys)
    have hys : c ∉ ys := fun hm => ha (List.mem_cons_of_mem y hm)
    simp only [List.cons_append, splitOnChar, List.append_eq, ih hys, if_neg hy]

lemma parseStopId_roundtrip (a s : String) (ha : ('_' : Char) ∉ a.data) :
    parseStopId (a ++ "_" ++ s) = ⟨a, s⟩ := by
  have hdata : (a ++ "_" ++ s).data = a.data ++ '_' :: s.data := by
    simp [String.data_append]
  unfold parseStopId
  rw [hdata, splitOnChar_append_sep _ _ _ ha]
  simp only [joinWith_splitOnChar]

lemma parseRouteId_roundtrip (a s : String) (ha : ('_' : Char) ∉ a.data) :
    parseRouteId (a ++ "_" ++ s) = ⟨a, s⟩ := by
  have hdata : (a ++ "_" ++ s).data = a.data ++ '_' :: s.data := by
    simp [String.data_append]
  unfold parseRouteId
  rw [hdata, splitOnChar_append_sep _ _ _ ha]
  simp only [joinWith_splitOnChar]

/-- Claim C2: for every agency code in HMRL/MMTS/TGSRTC (none of which
contains an underscore) and every id string — underscores included —
`parseStopId` and `parseRouteId` are left inverses of the namespacing
function `id ↦ agency ++ "_" ++ id`. -/
theorem parse_inverts_namespacing (a s : String)
    (ha : a = "HMRL" ∨ a = "MMTS" ∨ a = "TGSRTC") :
    parseStopId (a ++ "_" ++ s) = ⟨a, s⟩ ∧
    parseRouteId (a ++ "_" ++ s) = ⟨a, s⟩ := by
  have hnu : ('_' : Char) ∉ a.data := by
    rcases ha with rfl | rfl | rfl <;> decide
  exact ⟨parseStopId_roundtrip a s hnu, parseRouteId_roundtrip a s hnu⟩

theorem parse_inverts_namespacing_witness :
    (("HMRL" : String) = "HMRL" ∨ ("HMRL" : String) = "MMTS" ∨
      ("HMRL" : String) = "TGSRTC") ∧
    parseStopId ("HMRL" ++ "_" ++ "ab_c") = ⟨"HMRL", "ab_c"⟩ ∧
    parseRouteId ("HMRL" ++ "_" ++ "ab_c") = ⟨"HMRL", "ab_c"⟩ :=
  ⟨Or.inl rfl, parse_inverts_namespacing "HMRL" "ab_c" (Or.inl rfl)⟩

-- ===========================================================================
-- C3: timetable buckets order by the original pre-modulo time value
-- ===========================================================================

lemma mem_insertSorted (t a : Nat) (l : List Nat) :
    a ∈ TimetableBuilder.insertSorted t l ↔ a = t ∨ a ∈ l := by
  induction l with
  | nil => simp [TimetableBuilder.insertSorted]
  | cons x xs ih =>
    simp only [TimetableBuilder.insertSorted]
    by_cases h1 : t < x
    · simp [h1]
    · by_cases h2 : t = x
      · subst h2
        simp [h1, List.mem_cons]
      · simp [h1, h2, List.mem_cons, ih]
        tauto

lemma pairwise_insertSorted (t : Nat) (l : List Nat)
    (h : l.Pairwise (· < ·)) :
    (TimetableBuilder.insertSorted t l).Pairwise (· < ·) := by
  induction l with
  | nil => simp [TimetableBuilder.insertSorted]
  | cons x xs ih =>
    cases h with
    | cons hx hxs =>
      simp only [TimetableBuilder.insertSorted]
      by_cases h1 : t < x
      · rw [if_pos h1]
        refine List.Pairwise.cons ?_ (List.Pairwise.cons hx hxs)
        intro b hb
        rcases List.mem_cons.mp hb with rfl | hb
        · exact h1
        · exact Nat.lt_trans h1 (hx b hb)
      · by_cases h2 : t = x
        · simp only [if_neg h1, if_pos h2]
          exact List.Pairwise.cons hx hxs
        · simp only [if_neg h1, if_neg h2]
          refine List.Pairwise.cons ?_ (ih hxs)
          intro b hb
          rcases (mem_insertSorted t b xs).mp hb with rfl | hb
          · omega
          · exact hx b hb

lemma mem_sortDedup (a : Nat) (ts : List Nat) :
    a ∈ TimetableBuilder.sortDedup ts ↔ a ∈ ts := by
  induction ts with
  | nil => simp [TimetableBuilder.sortDedup]
  | cons x xs ih =>
    simp only [TimetableBuilder.sortDedup, List.foldr_cons] at ih ⊢
    rw [mem_insertSorted, ih, List.mem_cons]

lemma pairwise_sortDedup (ts : List Nat) :
    (TimetableBuilder.sortDedup ts).Pairwise (· < ·) := by
  induction ts with
  | nil => simp [TimetableBuilder.sortDedup]
  | cons x xs ih =>
    simp only [TimetableBuilder.sortDedup, List.foldr_cons] at ih ⊢
    exact pairwise_insertSorted x _ ih

lemma eq_pair_of_strictSorted (l : List Nat) (a b : Nat) (hab : a < b)
    (hs : l.Pairwise (· < ·)) (hm : ∀ x, x ∈ l ↔ (x = a ∨ x = b)) :
    l = [a, b] := by
  rcases l with _ | ⟨x, _ | ⟨y, _ | ⟨z, rest⟩⟩⟩
  · exact absurd ((hm a).mpr (Or.inl rfl)) (List.not_mem_nil a)
  · have ha := (hm a).mpr (Or.inl rfl)
    have hb := (hm b).mpr (Or.inr rfl)
    simp only [List.mem_singleton] at ha hb
    omega
  · have hx := (hm x).mp (by simp)
    have hy := (hm y).mp (by simp)
    cases hs with
    | cons h1 hs' =>
      have hxy : x < y := h1 y (by simp)
      rcases hx with rfl | rfl <;> rcases hy with rfl | rfl
      · omega
      · rfl
      · omega
      · omega
  · cases hs with
    | cons h1 hs' =>
      cases hs' with
      | cons h2 hs'' =>
        have hx := (hm x).mp (by simp)
        have hy := (hm y).mp (by simp)
        have hz := (hm z).mp (by simp)
        have hxy : x < y := h1 y (by simp)
        have hyz : y < z := h2 z (by simp)
        exfalso
        rcases hx with rfl | rfl <;> rcases hy with rfl | rfl <;>
          rcases hz with h | h <;> omega

/-- Claim C3: within a (stop, route, day-type) bucket, times are ordered by
the original pre-modulo GTFS value — a bucket whose trips depart at raw
times 23:50:00 (85800 s) and 25:10:00 (90600 s) renders as
`["23:50", "01:10"]`, placing `"23:50"` first. -/
theorem timetable_orders_by_premodulo_value (ts : List Nat)
    (hall : ∀ t ∈ ts, t = 85800 ∨ t = 90600)
    (h1 : 85800 ∈ ts) (h2 : 90600 ∈ ts) :
    TimetableBuilder.buildBucket ts = ["23:50", "01:10"] := by
  have hsd : TimetableBuilder.sortDedup ts = [85800, 90600] := by
    refine eq_pair_of_strictSorted _ _ _ (by omega) (pairwise_sortDedup ts) ?_
    intro x
    rw [mem_sortDedup]
    constructor
    · exact hall x
    · rintro (rfl | rfl) <;> assumption
  unfold TimetableBuilder.buildBucket
  rw [hsd]
  rfl

theorem timetable_orders_by_premodulo_value_witness :
    (∀ t ∈ ([90600, 85800] : List Nat), t = 85800 ∨ t = 90600) ∧
    85800 ∈ ([90600, 85800] : List Nat) ∧
    90600 ∈ ([90600, 85800] : List Nat) ∧
    TimetableBuilder.buildBucket [90600, 85800] = ["23:50", "01:10"] :=
  ⟨by decide, by decide, by decide,
    timetable_orders_by_premodulo_value [90600, 85800] (by decide) (by decide) (by decide)⟩

-- ===========================================================================
-- C7: pipeline exit code and per-feed failure isolation
-- ===========================================================================

lemma filterMap_processFeed (feeds : List Pipeline.FeedInput) :
    (feeds.filterMap fun f => (Pipeline.processFeed f).toOption) =
      (feeds.filter fun f => f.requiredColumnsOk).map
        (fun f => { agency := f.code }) := by
  induction feeds with
  | nil => rfl
  | cons f fs ih =>
    rw [List.filterMap_cons, List.filter_cons]
    by_cases hf : f.requiredColumnsOk = true
    · have hh : (Pipeline.processFeed f).toOption = some { agency := f.code } := by
        simp [Pipeline.processFeed, hf, Except.toOption]
      simp [hh, ih, hf]
    · have hh : (Pipeline.processFeed f).toOption = none := by
        simp [Pipeline.processFeed, hf, Except.toOption]
      simp [hh, ih, hf]

/-- Claim C7: the run exits 0 iff at least one feed succeeded (non-zero when
zero feeds succeeded), and the produced output contains exactly the
contributions of the feeds that passed validation — a failing feed removes
only its own contribution. -/
theorem pipeline_exit_code_and_isolation (feeds : List Pipeline.FeedInput) :
    ((Pipeline.runPipeline feeds).2 = 0 ↔
      ∃ f ∈ feeds, f.requiredColumnsOk = true) ∧
    (Pipeline.runPipeline feeds).1 =
      (feeds.filter fun f => f.requiredColumnsOk).map
        (fun f => { agency := f.code }) := by
  refine ⟨?_, ?_⟩
  · show (if (feeds.filterMap fun f => (Pipeline.processFeed f).toOption).isEmpty
        then 1 else 0) = 0 ↔ ∃ f ∈ feeds, f.requiredColumnsOk = true
    rw [filterMap_processFeed]
    by_cases he : ((feeds.filter fun f => f.requiredColumnsOk).map
        (fun f => ({ agency := f.code } : Pipeline.FeedOutput))).isEmpty = true
    · rw [if_pos he]
      simp only [List.isEmpty_iff, List.map_eq_nil_iff, List.filter_eq_nil_iff] at he
      constructor
      · intro h
        exact absurd h (by omega)
      · rintro ⟨f, hf, hok⟩
        exact absurd hok (by simpa using he f hf)
    · rw [if_neg he]
      simp only [List.isEmpty_iff, List.map_eq_nil_iff, List.filter_eq_nil_iff] at he
      push_neg at he
      obtain ⟨f, hf, hok⟩ := he
      exact iff_of_true rfl ⟨f, hf, by simpa using hok⟩
  · show (feeds.filterMap fun f => (Pipeline.processFeed f).toOption) = _
    exact filterMap_processFeed feeds

-- ===========================================================================
-- C1: the two cross-index artifacts are exact inverses
-- ===========================================================================

lemma recordFindD_map {α β : Type} (f : α → String) (g : α → β)
    (l : List α) (x : α) (d : β)
    (hnd : (l.map f).Nodup) (hx : x ∈ l) :
    recordFindD (l.map fun y => (f y, g y)) (f x) d = g x := by
  induction l with
  | nil => cases hx
  | cons y ys ih =>
    simp only [List.map_cons] at hnd ⊢
    cases hnd with
    | cons h1 h2 =>
      simp only [recordFindD]
      rcases List.mem_cons.mp hx with rfl | hx'
      · rw [if_pos rfl]
      · rw [if_neg (h1 (f x) (List.mem_map_of_mem f hx'))]
        exact ih h2 hx'

lemma mem_recordFindD {α β : Type} (f : α → String) (g : α → List β)
    (l : List α) (k : String) (b : β)
    (hb : b ∈ recordFindD (l.map fun y => (f y, g y)) k []) :
    ∃ x, x ∈ l ∧ f x = k ∧ b ∈ g x := by
  induction l with
  | nil => simp [recordFindD] at hb
  | cons y ys ih =>
    simp only [List.map_cons, recordFindD] at hb
    by_cases he : f y = k
    · rw [if_pos he] at hb
      exact ⟨y, List.mem_cons_self y ys, he, hb⟩
    · rw [if_neg he] at hb
      obtain ⟨x, hx, hfx, hbx⟩ := ih hb
      exact ⟨x, List.mem_cons_of_mem y hx, hfx, hbx⟩

lemma stopIndex_find (stops : List OutputAssembler.Stop)
    (st : OutputAssembler.Stop)
    (hns : (stops.map OutputAssembler.Stop.id).Nodup) (hst : st ∈ stops) :
    recordFindD (OutputAssembler.stopToRoutesIndex stops) st.id [] =
      st.route_ids := by
  unfold OutputAssembler.stopToRoutesIndex
  exact recordFindD_map OutputAssembler.Stop.id OutputAssembler.Stop.route_ids
    stops st [] hns hst

lemma routeIndex_find (routes : List OutputAssembler.Route)
    (rt : OutputAssembler.Route)
    (hnr : (routes.map OutputAssembler.Route.id).Nodup) (hrt : rt ∈ routes) :
    recordFindD (OutputAssembler.routeToStopsIndex routes) rt.id [] =
      rt.ordered_stops.map
        (fun sr => { stop_id := sr.stop_id, name := sr.name, seq := sr.sequence_number }) := by
  unfold OutputAssembler.routeToStopsIndex
  exact recordFindD_map OutputAssembler.Route.id
    (fun rt => rt.ordered_stops.map
      (fun sr => ({ stop_id := sr.stop_id, name := sr.name, seq := sr.sequence_number } : RouteStopInfo)))
    routes rt [] hnr hrt

lemma stopIndex_mem (stops : List OutputAssembler.Stop) (k : String) (b : String)
    (hb : b ∈ recordFindD (OutputAssembler.stopToRoutesIndex stops) k []) :
    ∃ st, st ∈ stops ∧ OutputAssembler.Stop.id st = k ∧
      b ∈ OutputAssembler.Stop.route_ids st := by
  unfold OutputAssembler.stopToRoutesIndex at hb
  exact mem_recordFindD _ _ _ _ _ hb

lemma routeIndex_mem (routes : List OutputAssembler.Route) (k : String)
    (si : RouteStopInfo)
    (hb : si ∈ recordFindD (OutputAssembler.routeToStopsIndex routes) k []) :
    ∃ rt, rt ∈ routes ∧ OutputAssembler.Route.id rt = k ∧
      si ∈ rt.ordered_stops.map
        (fun sr => ({ stop_id := sr.stop_id, name := sr.name, seq := sr.sequence_number } : RouteStopInfo)) := by
  unfold OutputAssembler.routeToStopsIndex at hb
  exact mem_recordFindD _ _ _ _ _ hb

/-- Claim C1: when the Output Assembler succeeds (its integrity check passed),
the stop→routes and route→stops artifacts are exact inverses: for every stop
in the collection and every route id, the route id is in the stop's serving
routes iff the stop's id appears among the stop_ids of that route's
route→stops entry, and symmetrically for every route. -/
theorem index_artifacts_exact_inverses
    (stops : List OutputAssembler.Stop) (routes : List OutputAssembler.Route)
    (s2r : StopToRoutesMap) (r2s : RouteToStopsMap)
    (hns : (stops.map OutputAssembler.Stop.id).Nodup)
    (hnr : (routes.map OutputAssembler.Route.id).Nodup)
    (hok : OutputAssembler.assembleIndexes stops routes = .ok (s2r, r2s)) :
    (∀ st ∈ stops, ∀ r : String,
      r ∈ st.route_ids ↔
        st.id ∈ (recordFindD r2s r []).map RouteStopInfo.stop_id) ∧
    (∀ rt ∈ routes, ∀ sid : String,
      sid ∈ rt.ordered_stops.map OutputAssembler.StopRef.stop_id ↔
        rt.id ∈ recordFindD s2r sid []) := by
  unfold OutputAssembler.assembleIndexes at hok
  by_cases hcons : OutputAssembler.indexConsistent stops routes = true
  case neg =>
    rw [if_neg hcons] at hok
    cases hok
  rw [if_pos hcons] at hok
  obtain ⟨rfl, rfl⟩ := Prod.mk.inj (Except.ok.inj hok)
  unfold OutputAssembler.indexConsistent at hcons
  rw [Bool.and_eq_true] at hcons
  obtain ⟨hc1, hc2⟩ := hcons
  rw [List.all_eq_true] at hc1 hc2
  have check1 : ∀ st ∈ stops, ∀ r ∈ st.route_ids,
      st.id ∈ (recordFindD (OutputAssembler.routeToStopsIndex routes) r []).map
        RouteStopInfo.stop_id := by
    intro st hst r hr
    have h := hc1 st hst
    rw [List.all_eq_true] at h
    exact of_decide_eq_true (h r hr)
  have check2 : ∀ rt ∈ routes, ∀ sr ∈ rt.ordered_stops,
      rt.id ∈ recordFindD (OutputAssembler.stopToRoutesIndex stops)
        sr.stop_id [] := by
    intro rt hrt sr hsr
    have h := hc2 rt hrt
    rw [List.all_eq_true] at h
    exact of_decide_eq_true (h sr hsr)
  constructor
  · intro st hst r
    constructor
    · exact check1 st hst r
    · intro hmem
      rw [List.mem_map] at hmem
      obtain ⟨si, hsi, hsid⟩ := hmem
      obtain ⟨rt, hrt, hrtid, hsi'⟩ := routeIndex_mem routes r si hsi
      rw [List.mem_map] at hsi'
      obtain ⟨sr, hsr, hconv⟩ := hsi'
      have h2 := check2 rt hrt sr hsr
      have hsrid : sr.stop_id = st.id := by
        rw [← hsid, ← hconv]
      rw [hsrid, stopIndex_find stops st hns hst] at h2
      rw [← hrtid]
      exact h2
  · intro rt hrt sid
    constructor
    · intro hsid
      rw [List.mem_map] at hsid
      obtain ⟨sr, hsr, rfl⟩ := hsid
      exact check2 rt hrt sr hsr
    · intro hmem
      obtain ⟨st, hst, hstid, hr⟩ := stopIndex_mem stops sid rt.id hmem
      have h1 := check1 st hst rt.id hr
      rw [routeIndex_find routes rt hnr hrt, List.map_map] at h1
      subst hstid
      simpa using h1

theorem index_artifacts_exact_inverses_witness :
    ((sampleStops.map OutputAssembler.Stop.id).Nodup ∧
      (sampleRoutes.map OutputAssembler.Route.id).Nodup ∧
      OutputAssembler.assembleIndexes sampleStops sampleRoutes =
        .ok (OutputAssembler.stopToRoutesIndex sampleStops,
          OutputAssembler.routeToStopsIndex sampleRoutes)) ∧
    ((∀ st ∈ sampleStops, ∀ r : String,
        r ∈ st.route_ids ↔
          st.id ∈ (recordFindD (OutputAssembler.routeToStopsIndex sampleRoutes) r []).map
            RouteStopInfo.stop_id) ∧
      (∀ rt ∈ sampleRoutes, ∀ sid : String,
        sid ∈ rt.ordered_stops.map OutputAssembler.StopRef.stop_id ↔
          rt.id ∈ recordFindD (OutputAssembler.stopToRoutesIndex sampleStops) sid [])) :=
  ⟨⟨by decide, by decide, rfl⟩,
    index_artifacts_exact_inverses sampleStops sampleRoutes _ _
      (by decide) (by decide) rfl⟩
